import Mathlib

/-!
Shallow embedding of the MCP client repository (src/mcp_client.py and
src/utils/helpers.py) for checking its specification.

String primitives from Python are modelled over character lists so that
every definition evaluates by kernel reduction: str.strip, str.lower,
str.endswith and the substring test `a in b` (for ASCII data, which is
all the repository uses).
-/

namespace MCPSpec

/-- Python `c.isspace()` over the ASCII whitespace characters used by
`str.strip()` with no argument. -/
def isPyWhitespace (c : Char) : Bool :=
  c == ' ' || c == '\t' || c == '\n' || c == '\r' || c == Char.ofNat 11 || c == Char.ofNat 12

/-- Python `s.strip()`: drop leading and trailing whitespace. -/
def pyStrip (s : String) : String :=
  String.mk (((s.toList.dropWhile isPyWhitespace).reverse.dropWhile isPyWhitespace).reverse)

/-- Python `s.lower()` restricted to ASCII, which covers every string the
repository compares. -/
def pyLower (s : String) : String :=
  String.mk (s.toList.map Char.toLower)

/-- Whether `needle` occurs as a contiguous sublist of `haystack`. -/
def isInfixOfCh (needle : List Char) : List Char → Bool
  | [] => needle.isEmpty
  | c :: rest => needle.isPrefixOf (c :: rest) || isInfixOfCh needle rest

/-- Python `sub in s` substring containment. -/
def pyIn (sub s : String) : Bool :=
  isInfixOfCh sub.toList s.toList

/-- Python `s.endswith(suf)`. -/
def pyEndsWith (suf s : String) : Bool :=
  suf.toList.isSuffixOf s.toList

/-- The Python exceptions the embedded code can raise.
`invalidParameter key modelId` stands for the ValueError whose message
names the offending key and model id (helpers.py line 97);
`unsupportedModel` for the ValueError listing the supported model
families (helpers.py lines 90 and 151); `unsupportedScript` for the
ValueError at mcp_client.py line 63; `clientError code` for a botocore
ClientError carrying that error code; `other name` for any other
exception re-raised or propagated. -/
inductive PyErr where
  | invalidParameter (key modelId : String)
  | unsupportedModel
  | unsupportedScript
  | clientError (code : String)
  | other (name : String)
deriving DecidableEq, Repr

/-- JSON-like values, enough to write the synthetic request bodies that
helpers.py builds for the access check. -/
inductive JVal where
  | str (v : String)
  | num (v : ℚ)
  | arr (vs : List JVal)
  | obj (fields : List (String × JVal))

/-! ## Transport launcher (mcp_client.py, connect_to_server lines 60-70) -/

structure StdioServerParameters where
  command : String
  args : List String
  env : Option (List (String × String))
deriving DecidableEq, Repr

/-- The interpreter-dispatch phase of `MCPClient.connect_to_server`
(lines 60-70): suffix test, ValueError when neither suffix matches, and
the StdioServerParameters handed to stdio_client otherwise. -/
def connect_to_server (server_script_path : String) : Except PyErr StdioServerParameters :=
  let is_python := pyEndsWith ".py" server_script_path
  let is_js := pyEndsWith ".js" server_script_path
  if !(is_python || is_js) then
    .error .unsupportedScript
  else
    .ok { command := if is_python then "python" else "node"
          args := [server_script_path]
          env := none }

/-- The subprocess spawns `connect_to_server` performs for a given path:
one when dispatch succeeds, none when the ValueError is raised first. -/
def connectSpawns (server_script_path : String) : List StdioServerParameters :=
  match connect_to_server server_script_path with
  | .ok sp => [sp]
  | .error _ => []

/-! ## Resource stack (AsyncExitStack in mcp_client.py)

`connect_to_server` registers two asynchronous contexts on
`self.exit_stack`: the stdio_client transport (which owns the spawned
child process and the duplex byte channel) and the ClientSession.
`exit_stack.aclose()` unwinds the registered contexts newest-first and
leaves the stack empty. -/

/-- The three operating-system level resources the session acquires. -/
inductive Res where
  | childProc
  | duplexChan
  | session
deriving DecidableEq, Repr

/-- An exit stack is the list of registered contexts, newest first; each
context releases a fixed list of resources when unwound. -/
abbrev ExitStack := List (List Res)

/-- `exit_stack.enter_async_context ctx`. -/
def enterContext (st : ExitStack) (ctx : List Res) : ExitStack :=
  ctx :: st

/-- `exit_stack.aclose()`: unwind every registered context newest-first,
returning the release order and the (empty) remaining stack. -/
def aclose (st : ExitStack) : List Res × ExitStack :=
  (List.flatten st, [])

/-- `MCPClient.cleanup` (lines 114-116): awaits `exit_stack.aclose()`. -/
def cleanup (st : ExitStack) : List Res × ExitStack :=
  aclose st

/-- The stdio_client context: on exit it closes the duplex channel and
then terminates the child process it spawned. -/
def stdioCtx : List Res := [.duplexChan, .childProc]

/-- The ClientSession context: on exit it releases the session. -/
def sessionCtx : List Res := [.session]

/-- Where `connect_to_server` can stop: before the transport context is
entered (bad suffix or spawn failure), after it (ClientSession entry
fails), after both contexts (initialize or list_tools fails), or
successful connection. -/
inductive ConnectOutcome where
  | spawnFail
  | sessionFail
  | initFail
  | listToolsFail
  | connected
deriving DecidableEq, Repr

/-- The exit-stack contents at the moment `connect_to_server` stops, and
whether it succeeded. -/
def connectStack : ConnectOutcome → ExitStack × Bool
  | .spawnFail => ([], false)
  | .sessionFail => (enterContext [] stdioCtx, false)
  | .initFail => (enterContext (enterContext [] stdioCtx) sessionCtx, false)
  | .listToolsFail => (enterContext (enterContext [] stdioCtx) sessionCtx, false)
  | .connected => (enterContext (enterContext [] stdioCtx) sessionCtx, true)

/-- The resources actually acquired on each connect outcome, in
acquisition order, as the specification describes them: the child
process and duplex channel come with the transport context, the session
with the ClientSession context. -/
def acquisitionOrder : ConnectOutcome → List Res
  | .spawnFail => []
  | .sessionFail => [.childProc, .duplexChan]
  | .initFail => [.childProc, .duplexChan, .session]
  | .listToolsFail => [.childProc, .duplexChan, .session]
  | .connected => [.childProc, .duplexChan, .session]

/-! ## Interactive chat loop (mcp_client.py, chat_loop lines 96-112) -/

/-- One iteration of the read-loop environment: either `input()` raises
an exception (message `msg`), or it returns the raw line `raw`, in which
case `result` is what `process_query` would do with the stripped line
(return a response, or raise). Only exceptions that Python `except
Exception` catches are modelled, which is every standard exception. -/
inductive Step where
  | readErr (msg : String)
  | query (raw : String) (result : Except String String)
deriving Repr

/-- What one run of the loop body produced: the lines printed and the
queries for which `process_query` was invoked. -/
structure LoopResult where
  outputs : List String
  processed : List String
deriving DecidableEq, Repr

/-- `MCPClient.chat_loop` over a finite script of read events, lines
101-112: strip the line, break on a case-insensitive quit, otherwise
process the query and print the response; any exception in the cycle is
caught and printed as a single Error line, and the loop continues. -/
def chat_loop : List Step → LoopResult
  | [] => ⟨[], []⟩
  | .readErr msg :: rest =>
    let r := chat_loop rest
    ⟨("\nError: " ++ msg) :: r.outputs, r.processed⟩
  | .query raw result :: rest =>
    let query := pyStrip raw
    if pyLower query == "quit" then
      ⟨[], []⟩
    else
      let r := chat_loop rest
      match result with
      | .ok resp => ⟨("\n" ++ resp) :: r.outputs, query :: r.processed⟩
      | .error e => ⟨("\nError: " ++ e) :: r.outputs, query :: r.processed⟩

/-- How `chat_loop` itself ends: returning normally, or (only for
exceptions the inner handler does not catch) raising. -/
inductive LoopOutcome where
  | returned
  | raised (msg : String)
deriving DecidableEq, Repr

/-- Observable trace of one `main()` run (lines 123-128): the resources
released, the stack left afterwards, and the exception that escaped the
try/finally, if any. -/
structure MainTrace where
  releases : List Res
  finalStack : ExitStack
  escaped : Option String
deriving Repr

/-- `main()` lines 123-128: connect, run the chat loop when connected,
and release the exit stack in the `finally` block on every exit path. -/
def mainRun (c : ConnectOutcome) (l : LoopOutcome) : MainTrace :=
  let (st, connOk) := connectStack c
  let (rels, st2) := aclose st
  { releases := rels
    finalStack := st2
    escaped :=
      if connOk then
        match l with
        | .returned => none
        | .raised m => some m
      else some "connect raised" }

/-- Observable trace of a connected session driven by a script of read
events. -/
structure SessionRun where
  outputs : List String
  processed : List String
  releases : List Res
  finalStack : ExitStack
deriving DecidableEq, Repr

/-- `main()` on the happy connect path: run `chat_loop` over the script,
then `cleanup` in the `finally` block. -/
def mainSession (steps : List Step) : SessionRun :=
  let st := (connectStack .connected).1
  let lr := chat_loop steps
  let (rels, st2) := cleanup st
  ⟨lr.outputs, lr.processed, rels, st2⟩

/-! ## Inference parameter validation (helpers.py lines 14-99) -/

def titan_models_inf_param : List (String × String) :=
  [("temperature", "(float) Temperature"),
   ("topP", "(float) Top P"),
   ("maxTokenCount", "(int) Response Length"),
   ("stopSequences", "([string]) Stop Sequences")]

def claude_models_inf_param : List (String × String) :=
  [("temperature", "(float) Temperature"),
   ("topP", "(float) Top P"),
   ("topK", "(float) Top K"),
   ("max_tokens_to_sample", "(int) Maximum length"),
   ("stop_sequences", "([string]) Stop sequences")]

def jurassic_models_inf_param : List (String × String) :=
  [("temperature", "(float) Temperature"),
   ("topP", "(float) Top P"),
   ("maxTokens", "(int) Maximum completion length"),
   ("stopSequences", "([string]) Stop sequences"),
   ("presencePenalty", "(float) Presence penalty"),
   ("countPenalty", "(int) Count penalty"),
   ("frequencyPenalty", "(int) Frequency penalty"),
   ("applyToWhitespaces", "(bool) Whitespaces penalty"),
   ("applyToPunctuation", "(bool) Punctuations penalty"),
   ("applyToNumbers", "(bool) Numbers penalty"),
   ("applyToStopwords", "(bool) Stop words penalty"),
   ("applyToEmojis", "(bool) Emojis penalty")]

def command_models_inf_param : List (String × String) :=
  [("temperature", "(float) Temperature"),
   ("p", "(float) Top P"),
   ("k", "(float) Top K"),
   ("return_likelihoods", "(string) Return likelihoods - GENERATION, ALL, NONE "),
   ("stream", "(bool) Stream"),
   ("max_tokens", "(int) Maximum length"),
   ("stop_sequences", "(str) Stop sequences"),
   ("num_generations", "(int) Number of generations")]

def stability_models_inf_param : List (String × String) :=
  [("cfg_scale", "(float) Prompt Strength"),
   ("steps", "(int) Seed")]

def mixtral_models_inf_param : List (String × String) :=
  [("max_tokens", "(int) Maximum completion length"),
   ("stop", "(str) Stop sequences"),
   ("temperature", "(float) Temperature"),
   ("top_p", "(float) Top P"),
   ("top_k", "(float) Top K")]

/-- The keys of a parameter table. -/
def keysOf (l : List (String × String)) : List String :=
  l.map Prod.fst

/-- The if/elif chain of `validate_inference_parameters` lines 77-93:
which parameter table a model id selects, in source order of the
substring tests. -/
def selectionFor (model_id : String) : Option (List (String × String)) :=
  if pyIn "titan" model_id then some titan_models_inf_param
  else if pyIn "ai21" model_id then some jurassic_models_inf_param
  else if pyIn "claude" model_id then some claude_models_inf_param
  else if pyIn "command" model_id then some command_models_inf_param
  else if pyIn "stability" model_id then some stability_models_inf_param
  else if pyIn "mixtral" model_id then some mixtral_models_inf_param
  else none

/-- `validate_inference_parameters` (helpers.py lines 75-99): select the
family table by substring match (ValueError `unsupportedModel` when none
matches), then raise on the first parameter key outside the table,
naming the key and the model id; return True otherwise. Parameters are
an insertion-ordered dict, modelled as an association list iterated by
key. -/
def validate_inference_parameters (model_id : String)
    (inference_parameters : List (String × JVal)) : Except PyErr Bool :=
  match selectionFor model_id with
  | none => .error .unsupportedModel
  | some selection =>
    match (inference_parameters.map Prod.fst).find?
        (fun key => !(keysOf selection).contains key) with
    | some key => .error (.invalidParameter key model_id)
    | none => .ok true

/-! ## Model access validation (helpers.py lines 102-172) -/

/-- What one `bedrock_runtime.invoke_model(modelId, body)` call does:
succeed, raise a botocore ClientError carrying an error code, or raise
some other exception. -/
inductive InvokeResult where
  | success
  | clientError (code : String)
  | exception (name : String)

/-- The provider behind `invoke_model`, as a function of the model id
and the request body sent. -/
abbrev Provider := String → JVal → InvokeResult

/-- The synthetic request body `validate_model_access` builds, lines
107-154: one fixed body per family in the source order of the substring
tests (titan, mixtral, claude, command, stability), else the ValueError
listing the supported families. This chain has no `ai21` branch. -/
def buildAccessRequest (model_id : String) : Except PyErr JVal :=
  if pyIn "titan" model_id then
    .ok (.obj [("inputText", .str "How are you?"),
               ("textGenerationConfig", .obj [("maxTokenCount", .num 64),
                                             ("temperature", .num (1/2))])])
  else if pyIn "mixtral" model_id then
    .ok (.obj [("prompt", .str "<s>[INST] How are you? [/INST]"),
               ("max_tokens", .num 64),
               ("temperature", .num (1/2))])
  else if pyIn "claude" model_id then
    .ok (.obj [("anthropic_version", .str "bedrock-2023-05-31"),
               ("max_tokens", .num 64),
               ("temperature", .num (1/2)),
               ("system", .str "You are a helpful assistant."),
               ("messages", .arr [.obj [("role", .str "user"),
                                        ("content", .str "How are you?")]])])
  else if pyIn "command" model_id then
    .ok (.obj [("prompt", .str "How are you?"),
               ("max_tokens", .num 64),
               ("temperature", .num (1/2))])
  else if pyIn "stability" model_id then
    .ok (.obj [("text_prompts", .arr [.obj [("text", .str "How are you?"),
                                            ("cfg_scale", .num 10),
                                            ("steps", .num 1)]])])
  else
    .error .unsupportedModel

/-- `validate_model_access` (helpers.py lines 102-162): build the
synthetic request (the ValueError raised inside the try block is not a
ClientError, so it propagates), call `invoke_model`, return True on
success, False when the ClientError code is AccessDeniedException, and
re-raise any other ClientError; other exceptions propagate. The first
component records the invoke_model requests actually issued. -/
def validate_model_access (bedrock_runtime : Provider) (model_id : String) :
    List (String × JVal) × Except PyErr Bool :=
  match buildAccessRequest model_id with
  | .error e => ([], .error e)
  | .ok body =>
    match bedrock_runtime model_id body with
    | .success => ([(model_id, body)], .ok true)
    | .clientError code =>
      if code == "AccessDeniedException" then ([(model_id, body)], .ok false)
      else ([(model_id, body)], .error (.clientError code))
    | .exception name => ([(model_id, body)], .error (.other name))

/-- `validate_models_access` (helpers.py lines 165-172): the list
comprehension keeps, left to right, every id `validate_model_access`
reports inaccessible; the first raise aborts the comprehension and
propagates. The first component records all invoke_model requests
issued. -/
def validate_models_access (bedrock_runtime : Provider) :
    List String → List (String × JVal) × Except PyErr (List String)
  | [] => ([], .ok [])
  | model_id :: rest =>
    let (tr, r) := validate_model_access bedrock_runtime model_id
    match r with
    | .error e => (tr, .error e)
    | .ok accessible =>
      let (tr2, r2) := validate_models_access bedrock_runtime rest
      match r2 with
      | .error e => (tr ++ tr2, .error e)
      | .ok inaccessible =>
        (tr ++ tr2, .ok (if accessible then inaccessible else model_id :: inaccessible))

/-- Whether `validate_model_access` raises for this id under this
provider (unsupported family, non-access-denied ClientError, or other
exception), rather than classifying it accessible or inaccessible. -/
def accessCheckRaises (bedrock_runtime : Provider) (model_id : String) : Bool :=
  match buildAccessRequest model_id with
  | .error _ => true
  | .ok body =>
    match bedrock_runtime model_id body with
    | .success => false
    | .clientError code => !(code == "AccessDeniedException")
    | .exception _ => true

/-- Whether `validate_model_access` classifies this id inaccessible
(access denied) under this provider. -/
def accessDenied (bedrock_runtime : Provider) (model_id : String) : Bool :=
  match buildAccessRequest model_id with
  | .error _ => false
  | .ok body =>
    match bedrock_runtime model_id body with
    | .clientError code => code == "AccessDeniedException"
    | _ => false

/-! ## Client construction (mcp_client.py, MCPClient line 42-52) -/

/-- The one model id the client uses. -/
def claudeModelId : String := "anthropic.claude-3-sonnet-20240229-v1:0"

/-- The ChatBedrockConverse construction arguments at lines 48-52. -/
structure ChatBedrockConverse where
  model : String
  temperature : ℚ
  max_tokens : Option Nat
deriving DecidableEq, Repr

/-- The state `MCPClient.__init__` leaves behind. -/
structure MCPClientState where
  session : Option Unit
  exit_stack : ExitStack
  llm : ChatBedrockConverse
deriving Repr

/-- `MCPClient.__init__` (lines 43-52): run `validate_models_access` on
the single Claude id, DISCARDING its returned list; then bind the
session slot, a fresh exit stack and the llm. Construction fails only
when the access check raises. -/
def mcpClientInit (bedrock_runtime : Provider) : Except PyErr MCPClientState :=
  match (validate_models_access bedrock_runtime [claudeModelId]).2 with
  | .error e => .error e
  | .ok _ =>
    .ok { session := none
          exit_stack := []
          llm := { model := claudeModelId, temperature := 0, max_tokens := none } }

/-! ## Agent executor loop -/

/-- What the model proposes at one Thinking step, given the context so
far. -/
inductive AgentStep where
  | toolCall (name arguments : String)
  | finalAnswer (text : String)
  | malformed

/-- How one agent run ends. -/
inductive AgentResult where
  | done (answer : String)
  | parseError
  | capReached
deriving DecidableEq, Repr

/-- Modelled from the spec: the Agent Executor think/act/observe state
machine of section 4.4 with the documented maximum iteration count; the
executor itself is the external AgentExecutor library object constructed
at mcp_client.py lines 91-93 and its loop body is not in the source
tree. Each iteration consumes one unit of the cap: a final answer ends
in Done, a malformed step ends in AgentParseError, a tool call appends
the observation to the context and loops; an exhausted cap stops the
run. Returns the result and the number of iterations performed. -/
def agentLoop (model : List String → AgentStep) (tools : String → String → String) :
    Nat → List String → AgentResult × Nat
  | 0, _ => (.capReached, 0)
  | cap + 1, ctx =>
    match model ctx with
    | .finalAnswer t => (.done t, 1)
    | .malformed => (.parseError, 1)
    | .toolCall name arguments =>
      let (r, k) := agentLoop model tools cap (ctx ++ [tools name arguments])
      (r, k + 1)

/-! ## Theorems -/

/-- C1: every exception raised during a single query cycle (reading the
query or processing it) is caught by the read-loop, produces exactly one
printed line carrying the distinguishing Error marker and no stack
trace, and the loop continues with the next input line instead of
terminating. -/
theorem C1_chat_loop_catches_and_continues :
    (∀ msg rest, chat_loop (.readErr msg :: rest) =
      ⟨("\nError: " ++ msg) :: (chat_loop rest).outputs, (chat_loop rest).processed⟩) ∧
    (∀ raw e rest, pyLower (pyStrip raw) ≠ "quit" →
      chat_loop (.query raw (.error e) :: rest) =
        ⟨("\nError: " ++ e) :: (chat_loop rest).outputs,
         pyStrip raw :: (chat_loop rest).processed⟩) := by
  constructor
  · intro msg rest
    rfl
  · intro raw e rest h
    simp [chat_loop, h]

theorem C1_witness :
    pyLower (pyStrip " hello ") ≠ "quit" ∧
    chat_loop [Step.query " hello " (.error "bad")] =
      ⟨["\nError: bad"], ["hello"]⟩ := by
  constructor
  · decide
  · have h := C1_chat_loop_catches_and_continues.2 " hello " "bad" [] (by decide)
    rw [h]
    decide

/-- C2: any input line whose stripped form equals the quit token under
case-insensitive comparison ends the read-loop without processing it as
a query; when it is the first line, the whole session ends with the
resource stack fully released and no query processed. -/
theorem C2_quit_ends_loop (raw : String) (result : Except String String)
    (rest : List Step) (h : pyLower (pyStrip raw) = "quit") :
    chat_loop (.query raw result :: rest) = ⟨[], []⟩ ∧
    mainSession (.query raw result :: rest) =
      ⟨[], [], [.session, .duplexChan, .childProc], []⟩ := by
  have hl : chat_loop (.query raw result :: rest) = ⟨[], []⟩ := by
    simp [chat_loop, h]
  refine ⟨hl, ?_⟩
  simp [mainSession, hl, cleanup, aclose, connectStack, enterContext, stdioCtx, sessionCtx]

theorem C2_witness :
    pyLower (pyStrip " Quit ") = "quit" ∧
    chat_loop [Step.query " Quit " (.ok "x"), Step.query "later" (.ok "y")] = ⟨[], []⟩ ∧
    mainSession [Step.query " Quit " (.ok "x"), Step.query "later" (.ok "y")] =
      ⟨[], [], [.session, .duplexChan, .childProc], []⟩ := by
  have h := C2_quit_ends_loop " Quit " (.ok "x") [Step.query "later" (.ok "y")] (by decide)
  exact ⟨by decide, h.1, h.2⟩

/-- C3: connect selects the interpreter by suffix: a path ending in .py
launches python and a path ending in .js launches node, each with the
script path as sole argument and no environment overrides; a path with
neither suffix raises the unsupported-script ValueError and spawns no
process. -/
theorem C3_connect_dispatch (p : String) :
    (pyEndsWith ".py" p = true →
      connect_to_server p = .ok ⟨"python", [p], none⟩) ∧
    (pyEndsWith ".py" p = false → pyEndsWith ".js" p = true →
      connect_to_server p = .ok ⟨"node", [p], none⟩) ∧
    (pyEndsWith ".py" p = false → pyEndsWith ".js" p = false →
      connect_to_server p = .error .unsupportedScript ∧ connectSpawns p = []) := by
  refine ⟨?_, ?_, ?_⟩
  · intro hpy
    simp [connect_to_server, hpy]
  · intro hpy hjs
    simp [connect_to_server, hpy, hjs]
  · intro hpy hjs
    constructor
    · simp [connect_to_server, hpy, hjs]
    · simp [connectSpawns, connect_to_server, hpy, hjs]

theorem C3_witness :
    (pyEndsWith ".py" "server.py" = true ∧
      connect_to_server "server.py" = .ok ⟨"python", ["server.py"], none⟩) ∧
    (pyEndsWith ".js" "server.js" = true ∧
      connect_to_server "server.js" = .ok ⟨"node", ["server.js"], none⟩) ∧
    (connect_to_server "server.txt" = .error .unsupportedScript ∧
      connectSpawns "server.txt" = []) := by
  refine ⟨⟨by decide, (C3_connect_dispatch "server.py").1 (by decide)⟩,
          ⟨by decide, (C3_connect_dispatch "server.js").2.1 (by decide) (by decide)⟩,
          (C3_connect_dispatch "server.txt").2.2 (by decide) (by decide)⟩

/-- C4: on every exit path of the session (loop returned, loop raised,
or a failure partway through connect), the finally block releases
exactly the acquired resources, in reverse acquisition order (session,
then duplex channel, then child process), each at most once, and leaves
the stack empty. -/
theorem C4_cleanup_every_exit_path (c : ConnectOutcome) (l : LoopOutcome) :
    (mainRun c l).releases = (acquisitionOrder c).reverse ∧
    (∀ r : Res, ((mainRun c l).releases).count r ≤ 1) ∧
    (mainRun c l).finalStack = [] := by
  refine ⟨?_, ?_, ?_⟩
  · cases c <;> rfl
  · intro r
    have h1 : (mainRun c l).releases = (acquisitionOrder c).reverse := by
      cases c <;> rfl
    rw [h1]
    cases c <;> cases r <;> decide
  · cases c <;> rfl

/-- C5: a second `shutdown()` call has the same observable effect as one
call: the first leaves an empty stack, and the second releases nothing,
so the combined release trace equals that of a single call. -/
theorem C5_cleanup_idempotent (st : ExitStack) :
    (cleanup st).2 = [] ∧
    cleanup ((cleanup st).2) = ([], []) ∧
    (cleanup st).1 ++ (cleanup ((cleanup st).2)).1 = (cleanup st).1 := by
  simp [cleanup, aclose]

/-- When the access check does not raise for an id, it issues exactly
one request and classifies the id by whether the provider denied
access. -/
lemma validate_model_access_of_not_raises (rt : Provider) (id : String)
    (h : accessCheckRaises rt id = false) :
    ∃ body, buildAccessRequest id = .ok body ∧
      validate_model_access rt id = ([(id, body)], .ok (!accessDenied rt id)) := by
  unfold accessCheckRaises at h
  rcases hB : buildAccessRequest id with e | body
  · rw [hB] at h
    cases h
  · rw [hB] at h
    refine ⟨body, rfl, ?_⟩
    unfold validate_model_access accessDenied
    rw [hB]
    rcases hr : rt id body with _ | code | name
    · simp [hr]
    · simp only [hr] at h
      have hcode : code = "AccessDeniedException" := by
        simpa using h
      subst hcode
      simp [hr]
    · simp only [hr] at h
      cases h

/-- C6: the parameter validator classifies the model id into a family by
substring match and succeeds exactly when every parameter key lies in
that family's table; otherwise it raises naming an offending key and the
model id; when no family substring matches it raises the
unsupported-model error; in particular the temperature-plus-bogus set
against the Claude id fails naming bogus and the same set without bogus
succeeds. -/
theorem C6_validate_inference_parameters :
    (∀ model_id selection (params : List (String × JVal)),
      selectionFor model_id = some selection →
      (validate_inference_parameters model_id params = .ok true ↔
        ∀ k ∈ params.map Prod.fst, k ∈ keysOf selection)) ∧
    (∀ model_id selection (params : List (String × JVal)),
      selectionFor model_id = some selection →
      (∃ k ∈ params.map Prod.fst, k ∉ keysOf selection) →
      ∃ k, k ∈ params.map Prod.fst ∧ k ∉ keysOf selection ∧
        validate_inference_parameters model_id params =
          .error (.invalidParameter k model_id)) ∧
    (∀ model_id (params : List (String × JVal)),
      selectionFor model_id = none →
      validate_inference_parameters model_id params = .error .unsupportedModel) ∧
    validate_inference_parameters claudeModelId
      [("temperature", .num (1/2)), ("bogus", .num 1)]
      = .error (.invalidParameter "bogus" claudeModelId) ∧
    validate_inference_parameters claudeModelId
      [("temperature", .num (1/2))] = .ok true := by
  refine ⟨?_, ?_, ?_, by rfl, by rfl⟩
  · intro model_id selection params hsel
    unfold validate_inference_parameters
    simp only [hsel]
    constructor
    · intro h k hk
      rcases hf : (params.map Prod.fst).find?
          (fun key => !(keysOf selection).contains key) with _ | key
      · have := List.find?_eq_none.mp hf k hk
        simpa using this
      · simp only [hf] at h
        cases h
    · intro h
      have hf : (params.map Prod.fst).find?
          (fun key => !(keysOf selection).contains key) = none := by
        refine List.find?_eq_none.mpr ?_
        intro k hk
        simpa using h k hk
      simp only [hf]
  · intro model_id selection params hsel hex
    have hs : ((params.map Prod.fst).find?
        (fun key => !(keysOf selection).contains key)).isSome := by
      rw [List.find?_isSome]
      obtain ⟨k, hk, hnk⟩ := hex
      exact ⟨k, hk, by simpa using hnk⟩
    obtain ⟨key, hf⟩ := Option.isSome_iff_exists.mp hs
    refine ⟨key, List.mem_of_find?_eq_some hf, ?_, ?_⟩
    · have := List.find?_some hf
      simpa using this
    · unfold validate_inference_parameters
      simp only [hsel, hf]
  · intro model_id params hsel
    unfold validate_inference_parameters
    simp only [hsel]

theorem C6_witness :
    selectionFor claudeModelId = some claude_models_inf_param ∧
    validate_inference_parameters claudeModelId
      [("temperature", .num (1/2))] = .ok true := by
  refine ⟨by decide, ?_⟩
  exact (C6_validate_inference_parameters.1 claudeModelId claude_models_inf_param
    [("temperature", .num (1/2))] (by decide)).mpr (by decide)

/-- C7 counterexample: on the singleton list holding the identifier
ai21.j2-ultra-v1 the access validator issues zero synthetic inference
requests (not one per identifier) and returns no subset at all: it
raises the unsupported-model ValueError, because the request-building
chain has no ai21 branch. -/
theorem C7_counterexample :
    validate_models_access (fun _ _ => .success) ["ai21.j2-ultra-v1"]
      = ([], .error .unsupportedModel) := by
  rfl

/-- C7 amended: for every list of identifiers on which the access check
does not raise (each id matches a supported access-check family and the
provider answers each request with success or access-denied), the
validator issues exactly one synthetic request per identifier, in order,
and returns exactly the subset of identifiers found inaccessible (empty
when all are accessible); and a ClientError with any code other than
access-denied is re-raised rather than classified. -/
theorem C7_models_access_amended :
    (∀ (rt : Provider) (ids : List String),
      (∀ id ∈ ids, accessCheckRaises rt id = false) →
      (validate_models_access rt ids).1.map Prod.fst = ids ∧
      (validate_models_access rt ids).2 = .ok (ids.filter (accessDenied rt))) ∧
    (∀ (rt : Provider) (id : String) (body : JVal) (code : String),
      buildAccessRequest id = .ok body → rt id body = .clientError code →
      code ≠ "AccessDeniedException" →
      validate_model_access rt id = ([(id, body)], .error (.clientError code))) := by
  constructor
  · intro rt ids h
    induction ids with
    | nil => exact ⟨rfl, rfl⟩
    | cons id rest ih =>
      have hid : accessCheckRaises rt id = false := h id (List.mem_cons_self id rest)
      have hrest := ih (fun x hx => h x (List.mem_cons_of_mem id hx))
      obtain ⟨body, hB, hV⟩ := validate_model_access_of_not_raises rt id hid
      rcases hd : accessDenied rt id with _ | _
      · constructor
        · simp [validate_models_access, hV, hd, hrest.1, hrest.2]
        · simp [validate_models_access, hV, hd, hrest.2, List.filter_cons]
      · constructor
        · simp [validate_models_access, hV, hd, hrest.1, hrest.2]
        · simp [validate_models_access, hV, hd, hrest.2, List.filter_cons]
  · intro rt id body code hB hr hcode
    unfold validate_model_access
    have hc : (code == "AccessDeniedException") = false := by
      simpa using hcode
    simp only [hB, hr, hc]
    simp

theorem C7_witness :
    (∀ id ∈ [claudeModelId],
      accessCheckRaises (fun _ _ => .clientError "AccessDeniedException") id = false) ∧
    (validate_models_access (fun _ _ => .clientError "AccessDeniedException")
      [claudeModelId]).2 = .ok [claudeModelId] := by
  have h := C7_models_access_amended.1 (fun _ _ => .clientError "AccessDeniedException")
    [claudeModelId] (by decide)
  refine ⟨by decide, ?_⟩
  rw [h.2]
  rfl

/-- C8: the agent executor's think/act/observe loop performs at most the
documented maximum number of iterations for every model behavior and
context, and under a scripted model that proposes a tool call at every
Thinking step it stops exactly at the cap instead of running
indefinitely. -/
theorem C8_agent_loop_bounded (model : List String → AgentStep)
    (tools : String → String → String) (cap : Nat) (ctx : List String) :
    (agentLoop model tools cap ctx).2 ≤ cap ∧
    agentLoop (fun _ => .toolCall "tool" "input") tools cap ctx = (.capReached, cap) := by
  constructor
  · induction cap generalizing ctx with
    | zero => simp [agentLoop]
    | succ n ih =>
      rcases hm : model ctx with ⟨name, arguments⟩ | t | _
      · simpa [agentLoop, hm] using ih (ctx ++ [tools name arguments])
      · simp [agentLoop, hm]
      · simp [agentLoop, hm]
  · induction cap generalizing ctx with
    | zero => rfl
    | succ n ih => simp [agentLoop, ih]

/-- C9: a model id containing ai21 and none of the other family
substrings makes the access check raise the unsupported-model ValueError
before issuing any inference request, so the id is never classified
accessible or inaccessible, while the parameter validator does support
that id through the Jurassic table: the two validators support different
family sets. -/
theorem C9_family_sets_differ (id : String)
    (h1 : pyIn "ai21" id = true) (h2 : pyIn "titan" id = false)
    (h3 : pyIn "mixtral" id = false) (h4 : pyIn "claude" id = false)
    (h5 : pyIn "command" id = false) (h6 : pyIn "stability" id = false) :
    (∀ rt : Provider, validate_model_access rt id = ([], .error .unsupportedModel)) ∧
    selectionFor id = some jurassic_models_inf_param ∧
    validate_inference_parameters id [] = .ok true := by
  have hB : buildAccessRequest id = .error .unsupportedModel := by
    simp [buildAccessRequest, h2, h3, h4, h5, h6]
  have hsel : selectionFor id = some jurassic_models_inf_param := by
    simp [selectionFor, h1, h2]
  refine ⟨?_, hsel, ?_⟩
  · intro rt
    unfold validate_model_access
    simp only [hB]
  · unfold validate_inference_parameters
    simp only [hsel]
    rfl

theorem C9_witness :
    pyIn "ai21" "ai21.j2-ultra-v1" = true ∧
    validate_model_access (fun _ _ => .success) "ai21.j2-ultra-v1"
      = ([], .error .unsupportedModel) ∧
    validate_inference_parameters "ai21.j2-ultra-v1" [] = .ok true := by
  have h := C9_family_sets_differ "ai21.j2-ultra-v1" (by decide) (by decide)
    (by decide) (by decide) (by decide) (by decide)
  exact ⟨by decide, h.1 _, h.2.2⟩

/-- C10: client construction runs the access check on its single Claude
id and discards the returned list: an access-denied answer (which makes
the check return the id as inaccessible) still yields a constructed
client with the model bound, and construction fails exactly when the
check raises, for example on a ClientError with a different code. -/
theorem C10_init_discards_access_result (rt : Provider) :
    ((∀ body, rt claudeModelId body = .clientError "AccessDeniedException") →
      (validate_models_access rt [claudeModelId]).2 = .ok [claudeModelId] ∧
      mcpClientInit rt = .ok ⟨none, [], ⟨claudeModelId, 0, none⟩⟩) ∧
    ((∀ body, rt claudeModelId body = .success) →
      mcpClientInit rt = .ok ⟨none, [], ⟨claudeModelId, 0, none⟩⟩) ∧
    (∀ code, code ≠ "AccessDeniedException" →
      (∀ body, rt claudeModelId body = .clientError code) →
      mcpClientInit rt = .error (.clientError code)) := by
  obtain ⟨b, hB⟩ : ∃ b, buildAccessRequest claudeModelId = Except.ok b := ⟨_, rfl⟩
  refine ⟨?_, ?_, ?_⟩
  · intro h
    have hV : validate_model_access rt claudeModelId = ([(claudeModelId, b)], .ok false) := by
      unfold validate_model_access
      simp only [hB, h b]
      rfl
    constructor
    · simp [validate_models_access, hV]
    · simp [mcpClientInit, validate_models_access, hV]
  · intro h
    have hV : validate_model_access rt claudeModelId = ([(claudeModelId, b)], .ok true) := by
      unfold validate_model_access
      simp only [hB, h b]
    simp [mcpClientInit, validate_models_access, hV]
  · intro code hcode h
    have hc : (code == "AccessDeniedException") = false := by
      simpa using hcode
    have hV : validate_model_access rt claudeModelId =
        ([(claudeModelId, b)], .error (.clientError code)) := by
      unfold validate_model_access
      simp only [hB, h b, hc]
      simp
    simp [mcpClientInit, validate_models_access, hV]

theorem C10_witness :
    mcpClientInit (fun _ _ => .clientError "AccessDeniedException")
      = .ok ⟨none, [], ⟨claudeModelId, 0, none⟩⟩ := by
  exact ((C10_init_discards_access_result
    (fun _ _ => .clientError "AccessDeniedException")).1 (fun _ => rfl)).2

end MCPSpec
